import Mathlib

/-!
Verification development for the saas-sync-platform repository.

Shallow embedding of the Go sources:
  * `internal/shared/models.go`       — data model (`Customer`, configuration records)
  * `agent/bitrix24/client.go`        — Bitrix24 connector (`customerToContact`,
    `FindContactByName`, `SyncCustomer`, `SyncCustomers`, `makeRequest`)
  * `agent/sage/connector.go`         — Sage change feed (`GetRecentCustomers`)
  * `cmd/tray-agent/main.go`          — sync driver (`performSync`)
  * the shared configuration loader   — `LoadConfig`, `loadFromEnv`, `setDefaults`

Machine timestamps (`time.Time`) are modelled as integers; wall-clock values and
remote-service responses enter the embedding as explicit parameters.
-/

namespace SaasSync

/-- Customer record, from `internal/shared/models.go` (`shared.Customer`).
`ModifiedDate time.Time` is modelled as an integer timestamp. -/
structure Customer where
  id : String
  code : String
  name : String
  email : String
  phone : String
  address : String
  city : String
  postalCode : String
  country : String
  modifiedDate : Int
  deriving DecidableEq, Repr

/-- Phone entry of a Bitrix24 contact, from `agent/bitrix24/client.go` (`PhoneField`). -/
structure PhoneField where
  value : String
  valueType : String
  typeID : String
  deriving DecidableEq, Repr

/-- Email entry of a Bitrix24 contact, from `agent/bitrix24/client.go` (`EmailField`). -/
structure EmailField where
  value : String
  valueType : String
  typeID : String
  deriving DecidableEq, Repr

/-- Bitrix24 contact as parsed by `FindContactByName` (`agent/bitrix24/client.go`,
`Contact`): only `ID`, `NAME` and `LAST_NAME` are selected and parsed there. -/
structure Contact where
  id : String
  name : String
  lastName : String
  deriving DecidableEq, Repr

/-- Value stored under one key of the `map[string]interface{}` built by
`customerToContact`: a plain string, a phone list or an email list. -/
inductive FieldValue where
  | str (s : String)
  | phones (l : List PhoneField)
  | emails (l : List EmailField)
  deriving DecidableEq, Repr

/-- Provenance note written into `COMMENTS` by `customerToContact` and
`CreateContact` (`agent/bitrix24/client.go`). -/
def commentsFor (code : String) : String :=
  "Synced from Sage 200c - Customer Code: " ++ code

/-- Field map built by `customerToContact` (`agent/bitrix24/client.go`, lines
265–308).  The Go `map[string]interface{}` is modelled as an association list;
each optional key is inserted exactly under the source's `!= ""` guard. -/
def customerToContact (customer : Customer) : List (String × FieldValue) :=
  [("NAME", FieldValue.str customer.name),
   ("COMMENTS", FieldValue.str (commentsFor customer.code))]
  ++ (if customer.phone ≠ "" then
        [("PHONE", FieldValue.phones [⟨customer.phone, "WORK", "PHONE"⟩])] else [])
  ++ (if customer.email ≠ "" then
        [("EMAIL", FieldValue.emails [⟨customer.email, "WORK", "EMAIL"⟩])] else [])
  ++ (if customer.address ≠ "" then
        [("ADDRESS", FieldValue.str customer.address)] else [])
  ++ (if customer.city ≠ "" then
        [("ADDRESS_CITY", FieldValue.str customer.city)] else [])
  ++ (if customer.postalCode ≠ "" then
        [("ADDRESS_POSTAL_CODE", FieldValue.str customer.postalCode)] else [])
  ++ (if customer.country ≠ "" then
        [("ADDRESS_COUNTRY", FieldValue.str customer.country)] else [])

/-- Keys present in a field map. -/
def fieldKeys (fields : List (String × FieldValue)) : List String :=
  fields.map Prod.fst

/-- Result of `FindContactByName` over the contacts held by the remote service
(`agent/bitrix24/client.go`, lines 161–202).  The remote `crm.contact.list`
call with `filter: {NAME: name}` is modelled as filtering the remote contact
list on exact `NAME` equality; the Go code takes `resultArray[0]` — the first
element — when the result is non-empty, and otherwise falls through to the
`"contact not found"` error. -/
def findContactByName (contacts : List Contact) (name : String) :
    Except String Contact :=
  match (contacts.filter (fun c => c.name = name)).head? with
  | some c => Except.ok c
  | none => Except.error "contact not found"

/-- Lookup including the transport layer: `makeRequest` failures (network error,
non-200 HTTP status) and API errors all surface as a non-nil `error` from
`FindContactByName` before the result array is inspected.  `transport = some e`
models such a failed lookup request; `none` models a request that reached the
remote service. -/
def findContactByNameT (transport : Option String) (contacts : List Contact)
    (name : String) : Except String Contact :=
  match transport with
  | some e => Except.error e
  | none => findContactByName contacts name

/-- The single write operation performed for one customer. -/
inductive SyncOp where
  | create (fields : List (String × FieldValue))
  | update (id : String) (fields : List (String × FieldValue))
  deriving DecidableEq, Repr

/-- Write chosen by `SyncCustomer` (`agent/bitrix24/client.go`, lines 205–216)
given the outcome of its `FindContactByName` lookup: `err == nil &&
existingContact != nil` leads to `UpdateContact(existingContact.ID, customer)`,
every other outcome falls through to `CreateContact(customer)`. -/
def syncCustomer (findResult : Except String Contact) (customer : Customer) :
    SyncOp :=
  match findResult with
  | Except.ok c => SyncOp.update c.id (customerToContact customer)
  | Except.error _ => SyncOp.create (customerToContact customer)

/-- One remote call issued by the connector. -/
inductive Call where
  | find (name : String)
  | write (op : SyncOp)
  deriving DecidableEq, Repr

/-- Remote calls issued by one `SyncCustomer` invocation, in order: the
`crm.contact.list` lookup, then exactly one write (`crm.contact.update` or
`crm.contact.add`). -/
def syncCustomerCalls (findResult : Except String Contact) (customer : Customer) :
    List Call :=
  [Call.find customer.name, Call.write (syncCustomer findResult customer)]

/-- `SyncCustomer` run against a remote contact state, with an optional
transport failure for the lookup request. -/
def syncCustomerT (transport : Option String) (contacts : List Contact)
    (customer : Customer) : SyncOp :=
  syncCustomer (findContactByNameT transport contacts customer.name) customer

/-- Remote contact a sync of `customer` resolves to: `some id` when the cycle
updates the existing contact `id`, `none` when it creates a fresh contact
(whose remote id is newly assigned by the service). -/
def syncResolvesTo (contacts : List Contact) (customer : Customer) :
    Option String :=
  match syncCustomerT none contacts customer with
  | SyncOp.update cid _ => some cid
  | SyncOp.create _ => none

/-- Per-batch counters of `SyncCustomers` (`agent/bitrix24/client.go`, lines
219–244): the loop visits every customer, increments `errorCount` when
`SyncCustomer` returned an error and `successCount` otherwise, and never
breaks out early.  `ok customer = true` models `SyncCustomer(&customer)`
returning nil for that customer.  Returns `(successCount, errorCount)`. -/
def syncCounts (customers : List Customer) (ok : Customer → Bool) : Nat × Nat :=
  customers.foldl
    (fun acc customer =>
      if ok customer then (acc.1 + 1, acc.2) else (acc.1, acc.2 + 1))
    (0, 0)

/-- Overall result of `SyncCustomers`: an error mentioning the error count when
`errorCount > 0`, success otherwise. -/
def syncCustomersResult (customers : List Customer) (ok : Customer → Bool) :
    Except String Unit :=
  let counts := syncCounts customers ok
  if counts.2 > 0 then
    Except.error ("sync completed with " ++ toString counts.2 ++ " errors")
  else
    Except.ok ()

/-- Customers visited by the `SyncCustomers` loop, in visit order, each with the
outcome of its `SyncCustomer` call.  The `for _, customer := range customers`
loop attempts every element unconditionally. -/
def syncAttempted (customers : List Customer) (ok : Customer → Bool) :
    List (Customer × Bool) :=
  customers.map (fun customer => (customer, ok customer))

/-- Timed call trace of `SyncCustomers` under a discrete clock (milliseconds).
Each entry is `(record index, call, time)`.  Remote calls are instantaneous in
this model; the only delay is the `time.Sleep(100 * time.Millisecond)` executed
after each customer, so both calls of one customer carry the same time stamp
and the next customer's calls start 100 ms later.  `fr customer` is the
outcome of the lookup for that customer. -/
def syncCustomersTrace (fr : Customer → Except String Contact) :
    List Customer → Nat → Nat → List (Nat × Call × Nat)
  | [], _, _ => []
  | customer :: rest, k, t =>
      (k, Call.find customer.name, t)
        :: (k, Call.write (syncCustomer (fr customer) customer), t)
        :: syncCustomersTrace fr rest (k + 1) (t + 100)

/-- Minimum spacing, in milliseconds, that `SyncCustomers` sleeps between
consecutive customers (`time.Sleep(100 * time.Millisecond)`). -/
def rateLimitMs : Nat := 100

/-- Stable insertion of one customer into a list sorted by `modifiedDate`
descending; models the database's `ORDER BY DateTimeModified DESC`. -/
def insertDesc (c : Customer) : List Customer → List Customer
  | [] => [c]
  | d :: ds =>
      if c.modifiedDate ≤ d.modifiedDate then d :: insertDesc c ds
      else c :: d :: ds

/-- Sort by `modifiedDate` descending (newest first); models the SQL
`ORDER BY DateTimeModified DESC` of `GetRecentCustomers`. -/
def sortDesc : List Customer → List Customer
  | [] => []
  | c :: cs => insertDesc c (sortDesc cs)

/-- Projection applied to every scanned row of `GetRecentCustomers`
(`agent/sage/connector.go`, lines 86–108): only account number, name, phone,
fax, email and modification date are selected; `ID` is set to `Code` and no
address columns are read, so the address fields of the produced `Customer`
stay at their zero value. -/
def scanRecentRow (c : Customer) : Customer :=
  { c with
    id := c.code
    address := ""
    city := ""
    postalCode := ""
    country := "" }

/-- Change feed `GetRecentCustomers` (`agent/sage/connector.go`, lines 62–116):
`SELECT TOP 100 … FROM SLCustomers WHERE DateTimeModified > ? ORDER BY
DateTimeModified DESC`, then a row scan.  `table` is the `SLCustomers` table
contents, `lastSync` the query parameter. -/
def getRecentCustomers (table : List Customer) (lastSync : Int) : List Customer :=
  (((sortDesc (table.filter (fun c => lastSync < c.modifiedDate))).take 100).map
    scanRecentRow)

/-- Ascending-by-`modified_at` ordering required by the specification's change
feed contract (spec §4.1 and testable property *Ordering*).  Stated from the
spec's words, to be compared with what `getRecentCustomers` returns. -/
def specAscendingByModified (records : List Customer) : Prop :=
  records.Pairwise (fun a b => a.modifiedDate ≤ b.modifiedDate)

/-- Descending (non-increasing) ordering by `modified_at`. -/
def descendingByModified (records : List Customer) : Prop :=
  records.Pairwise (fun a b => b.modifiedDate ≤ a.modifiedDate)

/-- Tray-agent state relevant to the watermark: `a.lastSync` from
`cmd/tray-agent/main.go`.  It is the only value carried across cycles that
selects the next change window. -/
structure AgentState where
  lastSync : Int
  deriving DecidableEq, Repr

/-- Outcome of one `performSync` run, from its early-return structure. -/
inductive CycleOutcome where
  | sageConnFailed
  | feedFailed
  | bitrixFailed (errorCount : Nat)
  | completed (count : Nat)
  deriving DecidableEq, Repr

/-- Change-window start computed by `performSync` (`cmd/tray-agent/main.go`,
lines 275–278) after `a.lastSync` has been set to the current time:
`since := a.lastSync.Add(-24h)`, then `since = a.lastSync.Add(-interval)`
whenever `a.lastSync` is not the zero time.  Times are in minutes, so 24 hours
is 1440. -/
def sinceOf (lastSync intervalMinutes : Int) : Int :=
  if lastSync = 0 then lastSync - 1440 else lastSync - intervalMinutes

/-- One run of `performSync` (`cmd/tray-agent/main.go`, lines 261–308).
`now` is the value of `time.Now()` (in minutes); `sageOk` and `feedOk` model
whether `TestConnection` and the `GetRecentCustomers` query succeed;
`bitrixConfigured` models `a.bitrix24Client != nil`; `table` is the
`SLCustomers` table and `ok` the per-customer outcome of `SyncCustomer`.
`a.lastSync = time.Now()` executes first, so every early return leaves the
watermark at `now`. -/
def performSync (st : AgentState) (now intervalMinutes : Int)
    (sageOk feedOk bitrixConfigured : Bool)
    (table : List Customer) (ok : Customer → Bool) :
    AgentState × CycleOutcome :=
  let next : AgentState := { st with lastSync := now }
  if !sageOk then (next, CycleOutcome.sageConnFailed)
  else if !feedOk then (next, CycleOutcome.feedFailed)
  else
    let customers := getRecentCustomers table (sinceOf now intervalMinutes)
    if bitrixConfigured then
      match syncCustomersResult customers ok with
      | Except.error _ => (next, CycleOutcome.bitrixFailed (syncCounts customers ok).2)
      | Except.ok _ => (next, CycleOutcome.completed customers.length)
    else (next, CycleOutcome.completed customers.length)

/-- Bitrix24 API error object (`APIError` in `agent/bitrix24/client.go`). -/
structure APIError where
  errorCode : String
  errorDescription : String
  deriving DecidableEq, Repr

/-- Value of the `result` field of a parsed Bitrix24 response
(`interface{}` in Go): a numeric contact id (`crm.contact.add`), a contact
array (`crm.contact.list`), or anything else. -/
inductive APIResult where
  | contactID (n : Int)
  | contacts (l : List Contact)
  | other
  deriving DecidableEq, Repr

/-- Parsed Bitrix24 response (`APIResponse` in `agent/bitrix24/client.go`):
a `result` value and an optional API error. -/
structure APIResponse where
  result : APIResult
  apiError : Option APIError
  deriving DecidableEq, Repr

/-- Response body of one HTTP exchange: either unparsable as JSON or a parsed
`APIResponse`, keeping the raw text (used in the HTTP error message). -/
inductive RespBody where
  | unparsable (raw : String)
  | parsed (resp : APIResponse) (raw : String)
  deriving DecidableEq, Repr

/-- Raw text of a response body. -/
def RespBody.raw : RespBody → String
  | RespBody.unparsable r => r
  | RespBody.parsed _ r => r

/-- What the remote side does on one HTTP attempt: the request itself fails
(`httpClient.Do` error, covering network timeouts), reading the body fails, or
an HTTP response with a status code and body arrives. -/
inductive AttemptOutcome where
  | netError (msg : String)
  | readError (msg : String)
  | httpResponse (status : Nat) (body : RespBody)
  deriving DecidableEq, Repr

/-- One call of `makeRequest` (`agent/bitrix24/client.go`, lines 311–353):
issue the request, read the body, reject any non-200 status, then parse.
The function body is straight-line: every failure returns immediately.
(`json.Marshal` of the literal request maps and `http.NewRequest` on the
computed URL cannot fail and are not modelled as failure points.) -/
def makeRequest (outcome : AttemptOutcome) : Except String APIResponse :=
  match outcome with
  | AttemptOutcome.netError msg =>
      Except.error ("failed to make request: " ++ msg)
  | AttemptOutcome.readError msg =>
      Except.error ("failed to read response: " ++ msg)
  | AttemptOutcome.httpResponse status body =>
      if status ≠ 200 then
        Except.error ("HTTP error " ++ toString status ++ ": " ++ body.raw)
      else
        match body with
        | RespBody.unparsable _ => Except.error "failed to parse response"
        | RespBody.parsed resp _ => Except.ok resp

/-- A whole `makeRequest` invocation run against the sequence of outcomes the
remote side would produce on successive attempts: the code contains no retry
loop, so exactly one attempt — attempt `0` — is consumed.  Returns the
surfaced result and the number of HTTP attempts issued. -/
def makeRequestRun (attemptOutcomes : Nat → AttemptOutcome) :
    Except String APIResponse × Nat :=
  (makeRequest (attemptOutcomes 0), 1)

/-- Transient-error classification from the spec's words (§4.2): network
timeout (request failure), 5xx status, or an explicit rate-limit signal
(HTTP 429).  Stated to formalise which outcomes the spec says must be
retried; the connector code contains no such classification. -/
def specTransientOutcome : AttemptOutcome → Bool
  | AttemptOutcome.netError _ => true
  | AttemptOutcome.readError _ => false
  | AttemptOutcome.httpResponse status _ =>
      decide (status = 429 ∨ (500 ≤ status ∧ status ≤ 599))

/-- Database connection settings (`DatabaseConfig` in
`internal/shared/models.go`). -/
structure DatabaseConfig where
  host : String
  hostSage : String
  port : String
  database : String
  username : String
  password : String
  licenseID : String
  deriving DecidableEq, Repr

/-- Bitrix24 integration settings (`Bitrix24Config`). -/
structure Bitrix24Config where
  apiTenant : String
  packEmpresa : Bool
  deriving DecidableEq, Repr

/-- Tickelia integration settings (`TickeliaConfig`). -/
structure TickeliaConfig where
  apiEndpoint : String
  apiKey : String
  environment : String
  deriving DecidableEq, Repr

/-- Sage-to-external company mapping (`CompanyMapping`). -/
structure CompanyMapping where
  bitrixCompany : String
  sageCompany : String
  deriving DecidableEq, Repr

/-- Synchronization preferences (`SyncSettings`). -/
structure SyncSettings where
  intervalMinutes : Int
  enabledModules : List String
  logLevel : String
  deriving DecidableEq, Repr

/-- SaaS platform connection details (`SaaSConnection`). -/
structure SaaSConnection where
  baseURL : String
  apiKey : String
  clientID : String
  tlsEnabled : Bool
  deriving DecidableEq, Repr

/-- Complete agent configuration (`AgentConfig` in
`internal/shared/models.go`). -/
structure AgentConfig where
  clientCode : String
  database : DatabaseConfig
  bitrix24 : Option Bitrix24Config
  tickelia : Option TickeliaConfig
  companies : List CompanyMapping
  syncSettings : SyncSettings
  saasConfig : SaaSConnection
  deriving DecidableEq, Repr

/-- Go zero value of `AgentConfig`, the state of `config := &AgentConfig{}`
before any loading stage has run. -/
def zeroAgentConfig : AgentConfig :=
  { clientCode := ""
    database := ⟨"", "", "", "", "", "", ""⟩
    bitrix24 := none
    tickelia := none
    companies := []
    syncSettings := ⟨0, [], ""⟩
    saasConfig := ⟨"", "", "", false⟩ }

/-- Process environment: a total map from variable name to value, `""` meaning
unset (Go's `os.Getenv` returns `""` for unset variables). -/
def Env : Type := String → String

/-- Helper `getEnv` from the configuration loader: the variable's value when
non-empty, the default otherwise. -/
def getEnv (env : Env) (key defaultValue : String) : String :=
  if env key ≠ "" then env key else defaultValue

/-- Accepted forms of `strconv.ParseBool`. -/
def parseBool (s : String) : Option Bool :=
  if s = "1" ∨ s = "t" ∨ s = "T" ∨ s = "true" ∨ s = "TRUE" ∨ s = "True" then
    some true
  else if s = "0" ∨ s = "f" ∨ s = "F" ∨ s = "false" ∨ s = "FALSE" ∨ s = "False" then
    some false
  else none

/-- Helper `getBoolEnv`: parse the variable with `strconv.ParseBool` when it is
set; fall back to the default when unset or unparsable. -/
def getBoolEnv (env : Env) (key : String) (defaultValue : Bool) : Bool :=
  if env key ≠ "" then
    match parseBool (env key) with
    | some b => b
    | none => defaultValue
  else defaultValue

/-- Helper `getIntEnv`: parse with `strconv.Atoi` (modelled by
`String.toInt?`); fall back to the default when unset or unparsable. -/
def getIntEnv (env : Env) (key : String) (defaultValue : Int) : Int :=
  if env key ≠ "" then
    match (env key).toInt? with
    | some n => n
    | none => defaultValue
  else defaultValue

/-- Database-field section of `loadFromEnv`: each `DatabaseConfig` field is
overridden from the environment only when still at its zero value. -/
def loadFromEnvDatabase (config : AgentConfig) (env : Env) : AgentConfig :=
  let config := if config.database.host = "" then
      { config with database := { config.database with host := getEnv env "SAGE_DB_HOST" "" } }
    else config
  let config := if config.database.port = "" then
      { config with database := { config.database with port := getEnv env "SAGE_DB_PORT" "1433" } }
    else config
  let config := if config.database.database = "" then
      { config with database := { config.database with database := getEnv env "SAGE_DB_NAME" "" } }
    else config
  let config := if config.database.username = "" then
      { config with database := { config.database with username := getEnv env "SAGE_DB_USER" "" } }
    else config
  let config := if config.database.password = "" then
      { config with database := { config.database with password := getEnv env "SAGE_DB_PASSWORD" "" } }
    else config
  let config := if config.database.licenseID = "" then
      { config with database := { config.database with licenseID := getEnv env "LICENSE_ID" "" } }
    else config
  config

/-- Bitrix24 and company-mapping section of `loadFromEnv`: the Bitrix24 block
is built from `BITRIX_ENDPOINT`/`PACK_EMPRESA` when absent, and the company
list from `EMPRESA_BITRIX`/`EMPRESA_SAGE` when empty. -/
def loadFromEnvIntegrations (config : AgentConfig) (env : Env) : AgentConfig :=
  let config := match config.bitrix24 with
    | some _ => config
    | none =>
        let bitrixEndpoint := getEnv env "BITRIX_ENDPOINT" ""
        if bitrixEndpoint ≠ "" then
          { config with
              bitrix24 := some (Bitrix24Config.mk bitrixEndpoint
                (getBoolEnv env "PACK_EMPRESA" false)) }
        else config
  let config := if config.companies.isEmpty then
      let empresaBitrix := getEnv env "EMPRESA_BITRIX" ""
      let empresaSage := getEnv env "EMPRESA_SAGE" ""
      if empresaBitrix ≠ "" ∧ empresaSage ≠ "" then
        { config with companies := [⟨empresaBitrix, empresaSage⟩] }
      else config
    else config
  config

/-- Client-code and sync-settings section of `loadFromEnv`. -/
def loadFromEnvSettings (config : AgentConfig) (env : Env) : AgentConfig :=
  let config := if config.clientCode = "" then
      { config with clientCode := getEnv env "BITRIX_CLIENT_CODE" "" }
    else config
  let config := if config.syncSettings.intervalMinutes = 0 then
      { config with syncSettings :=
          { config.syncSettings with
              intervalMinutes := getIntEnv env "SYNC_INTERVAL_MINUTES" 5 } }
    else config
  let config := if config.syncSettings.logLevel = "" then
      { config with syncSettings :=
          { config.syncSettings with logLevel := getEnv env "LOG_LEVEL" "info" } }
    else config
  config

/-- Stage `loadFromEnv` of the configuration loader, as the composition of its
three field sections in source order.  `SaaSConfig` is never touched here. -/
def loadFromEnv (config : AgentConfig) (env : Env) : AgentConfig :=
  loadFromEnvSettings (loadFromEnvIntegrations (loadFromEnvDatabase config env) env) env

/-- Sync-settings part of `setDefaults`: default interval and log level. -/
def setDefaultsSync (config : AgentConfig) : AgentConfig :=
  let config := if config.syncSettings.intervalMinutes = 0 then
      { config with syncSettings := { config.syncSettings with intervalMinutes := 5 } }
    else config
  let config := if config.syncSettings.logLevel = "" then
      { config with syncSettings := { config.syncSettings with logLevel := "info" } }
    else config
  config

/-- SaaS part of `setDefaults`: default base URL, and the rewrite of
`TLSEnabled` to `true` whenever it is `false`. -/
def setDefaultsSaaS (config : AgentConfig) : AgentConfig :=
  let config := if config.saasConfig.baseURL = "" then
      { config with saasConfig := { config.saasConfig with baseURL := "https://api.btic.cat" } }
    else config
  let config := if !config.saasConfig.tlsEnabled then
      { config with saasConfig := { config.saasConfig with tlsEnabled := true } }
    else config
  config

/-- Stage `setDefaults` of the configuration loader, as the composition of its
two sections in source order. -/
def setDefaults (config : AgentConfig) : AgentConfig :=
  setDefaultsSaaS (setDefaultsSync config)

/-- `ConfigLoader.LoadConfig`: load the `.env` file when present (`envLoad =
some e` models a `godotenv.Load` failure, `none` a skipped or successful
load), then the JSON file (`jsonStage = none` when the file is absent, `some
(Except.error e)` when unmarshalling fails, `some (Except.ok c)` for a parsed
configuration `c`), then apply `loadFromEnv` and `setDefaults`. -/
def loadConfig (envLoad : Option String)
    (jsonStage : Option (Except String AgentConfig)) (env : Env) :
    Except String AgentConfig :=
  match envLoad with
  | some e => Except.error ("error loading .env file: " ++ e)
  | none =>
      match jsonStage with
      | some (Except.error e) => Except.error ("error loading JSON config: " ++ e)
      | some (Except.ok c) => Except.ok (setDefaults (loadFromEnv c env))
      | none => Except.ok (setDefaults (loadFromEnv zeroAgentConfig env))

/-- Environment with every variable unset. -/
def emptyEnv : Env := fun _ => ""

/-- Sample customer with empty optional fields, used to instantiate theorems. -/
def sampleCustomerBare : Customer :=
  ⟨"", "C001", "Acme Ltd", "", "", "", "", "", "", 1⟩

/-- Sample remote contact whose name matches `sampleCustomerBare`. -/
def sampleContact : Contact := ⟨"1", "Acme Ltd", ""⟩

end SaasSync

namespace SaasSync

/-- C8: for every customer, the field map built by `customerToContact` omits
absent optional fields: when the customer's phone, email, address, city,
postal code or country is the empty string, the corresponding key does not
appear in the produced map at all. -/
theorem customerToContact_omits_empty_fields (customer : Customer) :
    (customer.phone = "" → "PHONE" ∉ fieldKeys (customerToContact customer)) ∧
    (customer.email = "" → "EMAIL" ∉ fieldKeys (customerToContact customer)) ∧
    (customer.address = "" → "ADDRESS" ∉ fieldKeys (customerToContact customer)) ∧
    (customer.city = "" → "ADDRESS_CITY" ∉ fieldKeys (customerToContact customer)) ∧
    (customer.postalCode = "" →
      "ADDRESS_POSTAL_CODE" ∉ fieldKeys (customerToContact customer)) ∧
    (customer.country = "" → "ADDRESS_COUNTRY" ∉ fieldKeys (customerToContact customer)) := by
  refine ⟨?_, ?_, ?_, ?_, ?_, ?_⟩ <;>
    · intro h
      simp only [customerToContact, fieldKeys, h]
      split_ifs <;> simp_all

/-- Closed instance of `customerToContact_omits_empty_fields` at a concrete
customer whose optional fields are all empty. -/
theorem customerToContact_omits_empty_fields_witness :
    "PHONE" ∉ fieldKeys (customerToContact sampleCustomerBare) ∧
    "EMAIL" ∉ fieldKeys (customerToContact sampleCustomerBare) ∧
    "ADDRESS" ∉ fieldKeys (customerToContact sampleCustomerBare) ∧
    "ADDRESS_CITY" ∉ fieldKeys (customerToContact sampleCustomerBare) ∧
    "ADDRESS_POSTAL_CODE" ∉ fieldKeys (customerToContact sampleCustomerBare) ∧
    "ADDRESS_COUNTRY" ∉ fieldKeys (customerToContact sampleCustomerBare) := by
  have h := customerToContact_omits_empty_fields sampleCustomerBare
  exact ⟨h.1 rfl, h.2.1 rfl, h.2.2.1 rfl, h.2.2.2.1 rfl, h.2.2.2.2.1 rfl, h.2.2.2.2.2 rfl⟩

/-- C5: for every customer, `SyncCustomer` performs the lookup first and then
exactly one write: a lookup returning an existing contact leads to an update
of that contact (never a create), and a lookup returning no contact leads to a
create (never an update). -/
theorem syncCustomer_lookup_decides_write (findResult : Except String Contact)
    (customer : Customer) :
    (∀ c, findResult = Except.ok c →
      syncCustomer findResult customer = SyncOp.update c.id (customerToContact customer)) ∧
    (∀ e, findResult = Except.error e →
      syncCustomer findResult customer = SyncOp.create (customerToContact customer)) ∧
    syncCustomerCalls findResult customer =
      [Call.find customer.name, Call.write (syncCustomer findResult customer)] := by
  refine ⟨?_, ?_, rfl⟩
  · rintro c rfl; rfl
  · rintro e rfl; rfl

/-- Closed instance of `syncCustomer_lookup_decides_write`: a found contact is
updated, a missing contact is created. -/
theorem syncCustomer_lookup_decides_write_witness :
    syncCustomer (Except.ok sampleContact) sampleCustomerBare
      = SyncOp.update "1" (customerToContact sampleCustomerBare) ∧
    syncCustomer (Except.error "contact not found") sampleCustomerBare
      = SyncOp.create (customerToContact sampleCustomerBare) := by
  exact ⟨(syncCustomer_lookup_decides_write (Except.ok sampleContact) sampleCustomerBare).1
            sampleContact rfl,
         (syncCustomer_lookup_decides_write (Except.error "contact not found")
            sampleCustomerBare).2.1 "contact not found" rfl⟩

/-- C9: whenever the lookup returns any non-nil error — a failed lookup
request (`transport = some e`) or an empty match result — `SyncCustomer`
creates a new contact instead of surfacing the lookup error, even when a
matching contact exists remotely. -/
theorem syncCustomer_lookup_error_creates (e : String) (contacts : List Contact)
    (customer : Customer) :
    syncCustomerT (some e) contacts customer
      = SyncOp.create (customerToContact customer) ∧
    (contacts.filter (fun c => c.name = customer.name) = [] →
      syncCustomerT none contacts customer
        = SyncOp.create (customerToContact customer)) := by
  constructor
  · rfl
  · intro h
    simp [syncCustomerT, findContactByNameT, findContactByName, h, syncCustomer]

/-- Closed instance of `syncCustomer_lookup_error_creates`: a transport-failed
lookup of an existing matching contact still results in a create. -/
theorem syncCustomer_lookup_error_creates_witness :
    syncCustomerT (some "failed to search contact: network timeout")
        [sampleContact] sampleCustomerBare
      = SyncOp.create (customerToContact sampleCustomerBare) ∧
    syncCustomerT none [] sampleCustomerBare
      = SyncOp.create (customerToContact sampleCustomerBare) := by
  exact ⟨(syncCustomer_lookup_error_creates "failed to search contact: network timeout"
            [sampleContact] sampleCustomerBare).1,
         (syncCustomer_lookup_error_creates "x" [] sampleCustomerBare).2 rfl⟩

/-- Counter evaluation of the `SyncCustomers` fold: the counters are exactly
the number of successful and failed customers of the whole batch. -/
theorem syncCounts_foldl (customers : List Customer) (ok : Customer → Bool)
    (a b : Nat) :
    customers.foldl
        (fun acc customer =>
          if ok customer then (acc.1 + 1, acc.2) else (acc.1, acc.2 + 1))
        (a, b)
      = (a + customers.countP ok, b + customers.countP (fun c => !(ok c))) := by
  induction customers generalizing a b with
  | nil => simp
  | cons c cs ih =>
    by_cases h : ok c <;>
      · simp [List.foldl_cons, List.countP_cons, h, ih, Prod.ext_iff]
        omega

/-- Evaluation of `syncCounts` in terms of per-record outcomes. -/
theorem syncCounts_eq (customers : List Customer) (ok : Customer → Bool) :
    syncCounts customers ok
      = (customers.countP ok, customers.countP (fun c => !(ok c))) := by
  simpa using syncCounts_foldl customers ok 0 0

/-- C4: per-record failures are isolated.  For every batch in which exactly
one record fails, `SyncCustomers` still attempts every record of the batch
(the attempt list covers the whole batch in order) and yields `N − 1`
successes and one recorded failure; the batch is never aborted. -/
theorem syncCustomers_isolates_failures (customers : List Customer)
    (ok : Customer → Bool)
    (h : customers.countP (fun c => !(ok c)) = 1) :
    (syncCounts customers ok).1 = customers.length - 1 ∧
    (syncCounts customers ok).2 = 1 ∧
    (syncAttempted customers ok).map Prod.fst = customers := by
  have hlen : customers.countP ok + customers.countP (fun c => !(ok c))
      = customers.length := by
    have h1 := customers.length_eq_countP_add_countP ok
    have h2 : customers.countP (fun c => !(ok c))
        = customers.countP (fun a => decide ¬(ok a = true)) :=
      List.countP_congr (fun a _ => by simp)
    omega
  refine ⟨?_, ?_, ?_⟩
  · rw [syncCounts_eq]
    simp only
    omega
  · rw [syncCounts_eq]
    simpa using h
  · have hmap : ∀ l : List Customer, (syncAttempted l ok).map Prod.fst = l := by
      intro l
      induction l with
      | nil => rfl
      | cons c cs ih =>
          simp only [syncAttempted, List.map_cons] at ih ⊢
          rw [ih]
    exact hmap customers

/-- Closed instance of `syncCustomers_isolates_failures` on a batch of three
customers where exactly the middle one fails: two successes, one failure. -/
theorem syncCustomers_isolates_failures_witness :
    (syncCounts
        [sampleCustomerBare,
         { sampleCustomerBare with code := "C002", name := "Beta SL" },
         { sampleCustomerBare with code := "C003", name := "Gamma SA" }]
        (fun c => c.code ≠ "C002")).1 = 2 ∧
    (syncCounts
        [sampleCustomerBare,
         { sampleCustomerBare with code := "C002", name := "Beta SL" },
         { sampleCustomerBare with code := "C003", name := "Gamma SA" }]
        (fun c => c.code ≠ "C002")).2 = 1 := by
  have h := syncCustomers_isolates_failures
    [sampleCustomerBare,
     { sampleCustomerBare with code := "C002", name := "Beta SL" },
     { sampleCustomerBare with code := "C003", name := "Gamma SA" }]
    (fun c => c.code ≠ "C002") (by decide)
  exact ⟨h.1, h.2.1⟩

/-- Members of `insertDesc c l` are `c` or members of `l`. -/
theorem mem_insertDesc (c x : Customer) (l : List Customer) :
    x ∈ insertDesc c l ↔ x = c ∨ x ∈ l := by
  induction l with
  | nil => simp [insertDesc]
  | cons d ds ih =>
    simp only [insertDesc]
    split
    · simp only [List.mem_cons, ih]
      tauto
    · simp [List.mem_cons]

/-- Inserting into a list sorted by `modifiedDate` descending keeps it
sorted. -/
theorem pairwise_insertDesc (c : Customer) (l : List Customer)
    (h : l.Pairwise (fun a b => b.modifiedDate ≤ a.modifiedDate)) :
    (insertDesc c l).Pairwise (fun a b => b.modifiedDate ≤ a.modifiedDate) := by
  induction l with
  | nil => simp [insertDesc]
  | cons d ds ih =>
    simp only [insertDesc]
    rw [List.pairwise_cons] at h
    split
    · rename_i hc
      rw [List.pairwise_cons]
      refine ⟨?_, ih h.2⟩
      intro x hx
      rcases (mem_insertDesc c x ds).mp hx with rfl | hx
      · exact hc
      · exact h.1 x hx
    · rename_i hc
      push_neg at hc
      rw [List.pairwise_cons]
      refine ⟨?_, List.pairwise_cons.mpr h⟩
      intro x hx
      rcases List.mem_cons.mp hx with rfl | hx
      · omega
      · have := h.1 x hx
        omega

/-- `sortDesc` sorts by `modifiedDate` descending (non-increasing). -/
theorem pairwise_sortDesc (l : List Customer) :
    (sortDesc l).Pairwise (fun a b => b.modifiedDate ≤ a.modifiedDate) := by
  induction l with
  | nil => simp [sortDesc]
  | cons c cs ih => exact pairwise_insertDesc c (sortDesc cs) ih

/-- C3 (amended): the change feed `GetRecentCustomers` returns the changed
records sorted descending (non-increasing) by modification timestamp — newest
first — so within one cycle the connector is called for newer records before
older ones. -/
theorem getRecentCustomers_descending (table : List Customer) (lastSync : Int) :
    descendingByModified (getRecentCustomers table lastSync) := by
  unfold descendingByModified getRecentCustomers
  rw [List.pairwise_map]
  refine List.Pairwise.sublist (List.take_sublist 100 _) ?_
  exact pairwise_sortDesc _

/-- C3 (counterexample): with two changed records of timestamps 1 < 2 and
watermark 0, the feed returns them newest first, so its output is not
ascending by modification timestamp as the claim states. -/
theorem getRecentCustomers_not_ascending :
    ¬ specAscendingByModified
        (getRecentCustomers
          [sampleCustomerBare, { sampleCustomerBare with code := "C002", modifiedDate := 2 }]
          0) ∧
    getRecentCustomers
        [sampleCustomerBare, { sampleCustomerBare with code := "C002", modifiedDate := 2 }]
        0
      = [scanRecentRow { sampleCustomerBare with code := "C002", modifiedDate := 2 },
         scanRecentRow sampleCustomerBare] := by
  constructor
  · unfold specAscendingByModified
    decide
  · decide

/-- C1: matching is by current display name only, so it is not stable across
syncs.  Evaluated at the failing input: contact `1` was created for customer
`C001` under the name `Acme Ltd`; while the name is unchanged the customer
resolves to contact `1`, but after a rename to `Acme Limited` the same
customer resolves to no existing contact and a fresh contact is created. -/
theorem syncResolvesTo_unstable_under_rename :
    syncResolvesTo [sampleContact] { sampleCustomerBare with name := "Acme Ltd" }
      = some "1" ∧
    syncResolvesTo [sampleContact] { sampleCustomerBare with name := "Acme Limited" }
      = none := by
  decide

/-- Every branch of `performSync` leaves the watermark at `now`: the
assignment `a.lastSync = time.Now()` runs before any work and no later
statement touches it. -/
theorem performSync_state (st : AgentState) (now intervalMinutes : Int)
    (sageOk feedOk bitrixConfigured : Bool) (table : List Customer)
    (ok : Customer → Bool) :
    (performSync st now intervalMinutes sageOk feedOk bitrixConfigured table ok).1
      = { st with lastSync := now } := by
  unfold performSync
  cases sageOk <;> cases feedOk <;> cases bitrixConfigured <;>
    (simp; try (split; rfl; rfl))

/-- C2 (amended): the stored watermark is rewritten to the cycle start time on
every cycle, whatever the per-record outcomes were; it never decreases as long
as cycle start times are non-decreasing, but it is not held back by `Failed`
records. -/
theorem performSync_watermark_is_cycle_start (st : AgentState)
    (now intervalMinutes : Int) (sageOk feedOk bitrixConfigured : Bool)
    (table : List Customer) (ok : Customer → Bool)
    (h : st.lastSync ≤ now) :
    (performSync st now intervalMinutes sageOk feedOk bitrixConfigured table ok).1.lastSync
      = now ∧
    st.lastSync ≤
      (performSync st now intervalMinutes sageOk feedOk bitrixConfigured table ok).1.lastSync := by
  rw [performSync_state]
  exact ⟨rfl, h⟩

/-- Closed instance of `performSync_watermark_is_cycle_start`. -/
theorem performSync_watermark_is_cycle_start_witness :
    (performSync ⟨0⟩ 10 5 true true true [] (fun _ => true)).1.lastSync = 10 ∧
    (0 : Int) ≤ (performSync ⟨0⟩ 10 5 true true true [] (fun _ => true)).1.lastSync :=
  performSync_watermark_is_cycle_start ⟨0⟩ 10 5 true true true [] (fun _ => true)
    (by decide)

/-- Customer whose remote write fails in the C2 counterexample cycle. -/
def failingCustomer : Customer :=
  ⟨"", "C099", "Fail Co", "", "", "", "", "", "", 98⟩

/-- C2 (counterexample): a cycle starting at time 100 with a 5-minute interval
fetches `failingCustomer` (modified at 98 > 95), its remote write fails, yet
the watermark still becomes 100 — strictly past the `Failed` record's
modification timestamp 98. -/
theorem performSync_advances_past_failed_record :
    performSync ⟨0⟩ 100 5 true true true [failingCustomer] (fun _ => false)
      = (⟨100⟩, CycleOutcome.bitrixFailed 1) ∧
    scanRecentRow failingCustomer
      ∈ getRecentCustomers [failingCustomer] (sinceOf 100 5) ∧
    failingCustomer.modifiedDate < 100 := by
  refine ⟨by decide, by decide, by decide⟩

/-- Position and time of every trace entry: entry `e` of a trace started at
record index `k` and time `t` satisfies `k ≤ e.idx` and
`e.time = t + 100 * (e.idx − k)`. -/
theorem syncCustomersTrace_time (fr : Customer → Except String Contact)
    (customers : List Customer) (k t : Nat) (e : Nat × Call × Nat)
    (he : e ∈ syncCustomersTrace fr customers k t) :
    k ≤ e.1 ∧ e.2.2 = t + 100 * (e.1 - k) := by
  induction customers generalizing k t with
  | nil => simp [syncCustomersTrace] at he
  | cons c cs ih =>
    simp only [syncCustomersTrace, List.mem_cons] at he
    rcases he with rfl | rfl | he
    · simp
    · simp
    · have := ih (k + 1) (t + 100) he
      omega

/-- C7 (amended): the 100 ms spacing holds only between distinct records:
whenever two trace entries belong to different record indices, their times are
at least `rateLimitMs` apart.  (The find and write calls of one record carry
the same index and are not spaced.) -/
theorem syncCustomersTrace_spacing_between_records
    (fr : Customer → Except String Contact) (customers : List Customer)
    (k t : Nat) (e1 e2 : Nat × Call × Nat)
    (h1 : e1 ∈ syncCustomersTrace fr customers k t)
    (h2 : e2 ∈ syncCustomersTrace fr customers k t)
    (h : e1.1 < e2.1) :
    e1.2.2 + rateLimitMs ≤ e2.2.2 := by
  have t1 := syncCustomersTrace_time fr customers k t e1 h1
  have t2 := syncCustomersTrace_time fr customers k t e2 h2
  unfold rateLimitMs
  omega

/-- Second sample customer for the two-record trace. -/
def secondCustomer : Customer :=
  ⟨"", "C002", "Beta SL", "", "", "", "", "", "", 2⟩

/-- Closed instance of `syncCustomersTrace_spacing_between_records`: in a
two-record batch the first record's find call and the second record's find
call are 100 ms apart. -/
theorem syncCustomersTrace_spacing_between_records_witness :
    (0, Call.find "Acme Ltd", 0).2.2 + rateLimitMs
      ≤ (1, Call.find "Beta SL", 100).2.2 :=
  syncCustomersTrace_spacing_between_records
    (fun _ => Except.error "contact not found") [sampleCustomerBare, secondCustomer]
    0 0 (0, Call.find "Acme Ltd", 0) (1, Call.find "Beta SL", 100)
    (by decide) (by decide) (by decide)

/-- C7 (counterexample): syncing a single customer issues its find call and
its write call at the same millisecond — two consecutive outbound calls with
zero spacing, below the 100 ms minimum the claim requires of every
consecutive pair. -/
theorem syncCustomersTrace_no_spacing_within_record :
    syncCustomersTrace (fun _ => Except.error "contact not found")
        [sampleCustomerBare] 0 0
      = [(0, Call.find "Acme Ltd", 0),
         (0, Call.write (SyncOp.create (customerToContact sampleCustomerBare)), 0)] ∧
    (0 : Nat) < rateLimitMs := by
  refine ⟨by decide, by decide⟩

/-- Successfully parsed response used in the retry scenario. -/
def okResponse : APIResponse := ⟨APIResult.contactID 7, none⟩

/-- Remote behaviour in the retry scenario: the first attempt gets an HTTP 500,
every later attempt would succeed. -/
def transientThenOk : Nat → AttemptOutcome := fun n =>
  if n = 0 then AttemptOutcome.httpResponse 500 (RespBody.unparsable "server overloaded")
  else AttemptOutcome.httpResponse 200 (RespBody.parsed okResponse "ok")

/-- C6 (counterexample): the first attempt returns a transient error (HTTP
500) and a second attempt would succeed, yet `makeRequest` surfaces the error
after exactly one attempt — no retry happens inside the connector. -/
theorem makeRequest_no_retry_on_transient :
    specTransientOutcome (transientThenOk 0) = true ∧
    makeRequestRun transientThenOk
      = (Except.error "HTTP error 500: server overloaded", 1) ∧
    makeRequest (transientThenOk 1) = Except.ok okResponse := by
  refine ⟨by decide, rfl, rfl⟩

/-- C6 (amended): transient remote errors are not retried: every `makeRequest`
call issues exactly one HTTP attempt, and when that attempt's outcome is
transient (network failure, 5xx, rate-limit signal) the error is surfaced to
the caller immediately, so the record is counted as failed after a single
attempt. -/
theorem makeRequest_surfaces_transient_immediately
    (attemptOutcomes : Nat → AttemptOutcome)
    (h : specTransientOutcome (attemptOutcomes 0) = true) :
    (makeRequestRun attemptOutcomes).2 = 1 ∧
    ∃ e, (makeRequestRun attemptOutcomes).1 = Except.error e := by
  refine ⟨rfl, ?_⟩
  unfold makeRequestRun
  cases ho : attemptOutcomes 0 with
  | netError msg => exact ⟨"failed to make request: " ++ msg, rfl⟩
  | readError msg =>
      rw [ho] at h
      simp [specTransientOutcome] at h
  | httpResponse status body =>
      rw [ho] at h
      simp only [specTransientOutcome, decide_eq_true_eq] at h
      have hs : status ≠ 200 := by omega
      refine ⟨"HTTP error " ++ toString status ++ ": " ++ body.raw, ?_⟩
      simp [makeRequest, hs]

/-- Closed instance of `makeRequest_surfaces_transient_immediately` at the
retry scenario's outcome sequence. -/
theorem makeRequest_surfaces_transient_immediately_witness :
    (makeRequestRun transientThenOk).2 = 1 ∧
    ∃ e, (makeRequestRun transientThenOk).1 = Except.error e :=
  makeRequest_surfaces_transient_immediately transientThenOk (by decide)

/-- The final `if` of `setDefaults` forces `tlsEnabled`, whatever
configuration reaches it. -/
theorem tlsEnabled_after_default_step (d : AgentConfig) :
    (if !d.saasConfig.tlsEnabled then
        { d with saasConfig := { d.saasConfig with tlsEnabled := true } }
      else d).saasConfig.tlsEnabled = true := by
  by_cases h : d.saasConfig.tlsEnabled <;> simp [h]

/-- The `setDefaults` stage always leaves `TLSEnabled` at `true`: it rewrites
a `false` value to `true` and keeps a `true` value. -/
theorem setDefaults_tls (config : AgentConfig) :
    (setDefaults config).saasConfig.tlsEnabled = true :=
  tlsEnabled_after_default_step _

/-- C10: every configuration returned successfully by `LoadConfig` has
`TLSEnabled = true`: `setDefaults` runs last on every success path and
rewrites `TLSEnabled` to `true` whenever it is `false`, so no input file or
environment can produce a loaded configuration with TLS disabled. -/
theorem loadConfig_tls_always_enabled (envLoad : Option String)
    (jsonStage : Option (Except String AgentConfig)) (env : Env)
    (config : AgentConfig)
    (h : loadConfig envLoad jsonStage env = Except.ok config) :
    config.saasConfig.tlsEnabled = true := by
  cases envLoad with
  | some e => simp [loadConfig] at h
  | none =>
    cases jsonStage with
    | none =>
        simp only [loadConfig, Except.ok.injEq] at h
        rw [← h]
        exact setDefaults_tls _
    | some r =>
        cases r with
        | error e => simp [loadConfig] at h
        | ok c =>
            simp only [loadConfig, Except.ok.injEq] at h
            rw [← h]
            exact setDefaults_tls _

/-- Closed instance of `loadConfig_tls_always_enabled`: loading with no config
file, no env file and an empty environment yields TLS enabled. -/
theorem loadConfig_tls_always_enabled_witness :
    (setDefaults (loadFromEnv zeroAgentConfig emptyEnv)).saasConfig.tlsEnabled
      = true :=
  loadConfig_tls_always_enabled none none emptyEnv
    (setDefaults (loadFromEnv zeroAgentConfig emptyEnv)) rfl

end SaasSync
